import Mathlib

/-!
# Verification of the tornet IP-rotation core

A shallow embedding of the IP-rotation control loop of `tornet.py`.
Network and process effects (HTTP probes, the Tor control port, OS service
commands) are modelled by explicit oracles passed to the embedded functions:
each call of the Python code to an effectful collaborator becomes one lookup
in the oracle, so that the embedded functions are pure and executable while
the control flow, comparisons and data handling are translated line by line
from the source.

Python truthiness of a probed IP (`if new_ip:`) — false for `None` and for
the empty string — is modelled by `truthy : Option String → Bool`.
-/

set_option autoImplicit false

namespace Tornet

/-- Python truthiness of an optional string: `None` and `""` are falsy. -/
def truthy : Option String → Bool
  | none => false
  | some s => s ≠ ""

/-! ## Network Identity Prober (`ma_ip_tor`, `ma_ip_normal`, tornet.py 496-560) -/

/-- The observable configuration of one `requests.get` call. -/
structure HttpRequest where
  url : String
  socksProxy : Option String
  timeoutSeconds : Nat
  deriving DecidableEq, Repr

/-- Oracle for the outcome of one HTTP request.  `success body` is a 2xx
response with the given body; `httpError s` is a response whose status makes
`raise_for_status` raise; `timeout` is `requests.exceptions.Timeout`;
`connError` is any other `requests.RequestException`. -/
inductive HttpOutcome where
  | success (body : String)
  | httpError (status : Nat)
  | timeout
  | connError
  deriving DecidableEq, Repr

/-- Whether an HTTP outcome is one of the failure cases caught by the probes. -/
def HttpOutcome.isFailure : HttpOutcome → Bool
  | .success _ => false
  | _ => true

/-- The single request issued by `ma_ip_tor`: the IP-echo endpoint through the
local SOCKS proxy `socks5h://127.0.0.1:9050`, timeout 30 s (tornet.py 496-512). -/
def ma_ip_tor_request : HttpRequest :=
  { url := "https://api.ipify.org"
    socksProxy := some "socks5h://127.0.0.1:9050"
    timeoutSeconds := 30 }

/-- The single request issued by `ma_ip_normal`: the IP-echo endpoint with no
proxy, timeout 10 s (tornet.py 534-544). -/
def ma_ip_normal_request : HttpRequest :=
  { url := "https://api.ipify.org"
    socksProxy := none
    timeoutSeconds := 10 }

/-- `ma_ip_tor` (tornet.py 496-532): returns the stripped response body on
success and `None` on timeout, HTTP error status or connection error.  The
second component is the list of requests the call issues (always exactly one:
there are no retries at this layer). -/
def ma_ip_tor (o : HttpOutcome) : Option String × List HttpRequest :=
  match o with
  | .success body => (some body.trim, [ma_ip_tor_request])
  | .httpError _ => (none, [ma_ip_tor_request])
  | .timeout => (none, [ma_ip_tor_request])
  | .connError => (none, [ma_ip_tor_request])

/-- `ma_ip_normal` (tornet.py 534-560): same handler structure as `ma_ip_tor`
but direct (no proxy) with a 10 s timeout. -/
def ma_ip_normal (o : HttpOutcome) : Option String × List HttpRequest :=
  match o with
  | .success body => (some body.trim, [ma_ip_normal_request])
  | .httpError _ => (none, [ma_ip_normal_request])
  | .timeout => (none, [ma_ip_normal_request])
  | .connError => (none, [ma_ip_normal_request])

/-! ## Circuit Rotation Driver
(`change_ip_via_control_port`, `reload_tor_service`, tornet.py 240-304) -/

/-- `reload_tor_service` (tornet.py 240-268): the service-manager command it
dispatches for each OS type, `none` when no command is dispatched (Windows and
unknown OS only print manual-action guidance). -/
def reload_tor_service (os_type : String) : Option String :=
  if os_type = "Linux" then some "sudo systemctl reload tor"
  else if os_type = "macOS" then some "brew services restart tor"
  else if os_type = "Windows" then none
  else none

/-- `change_ip_via_control_port` (tornet.py 270-304): returns `false` when the
stem library is unavailable; otherwise `true` exactly when the authenticate +
NEWNYM sequence on the control port succeeds (`controlOk`), since any exception
is caught and turned into `false`. -/
def change_ip_via_control_port (stemAvailable controlOk : Bool) : Bool :=
  if !stemAvailable then false else controlOk

/-- Which rotation mechanism one attempt ends up using. -/
inductive RotationAction where
  | controlSignal
  | serviceReload
  deriving DecidableEq, Repr

/-- The rotation step of one attempt of `change_ip` (tornet.py 588-596):
`if STEM_AVAILABLE and change_ip_via_control_port(): pass
 else: reload_tor_service()`. -/
def rotationAction (stemAvailable controlOk : Bool) : RotationAction :=
  if stemAvailable && change_ip_via_control_port stemAvailable controlOk then
    .controlSignal
  else
    .serviceReload

/-- The spec's `rotate() -> bool` contract read off the rotation step of one
attempt (tornet.py 588-596 together with `reload_tor_service`): `true` iff a
rotation command was issued — the NEWNYM signal went through, or the fallback
dispatched a service-reload command for this OS. -/
def rotate (stemAvailable controlOk : Bool) (os_type : String) : Bool :=
  if stemAvailable && change_ip_via_control_port stemAvailable controlOk then
    true
  else
    (reload_tor_service os_type).isSome

/-! ## Rotation Verifier / Retry Controller (`change_ip`, tornet.py 562-628) -/

/-- Oracle environment for one `change_ip` call: whether stem was importable,
the per-attempt success of the control-port sequence, the OS type, the result
of the baseline `ma_ip_tor()` probe, and the result of the post-rotation
`ma_ip_tor()` probe of each attempt (attempts are numbered from 1). -/
structure Env where
  stemAvailable : Bool
  controlOk : Nat → Bool
  osType : String
  baseline : Option String
  probe : Nat → Option String

/-- What one iteration of the retry loop did: its attempt number, the rotation
mechanism it used, and its post-rotation probe result. -/
structure AttemptRecord where
  attempt : Nat
  action : RotationAction
  probeResult : Option String
  deriving DecidableEq, Repr

/-- The retry loop of `change_ip` (tornet.py 584-628).  `fuel` is the number
of remaining iterations (`max_retries - attempt + 1`), `attempt` the 1-based
attempt number, `current` the running `current_ip_before_change`.  Returns the
returned IP (`none` for Python's `None`) and the trace of attempts performed.

Per iteration: rotate (control port first, falling back to service reload),
sleep, re-probe.  If the candidate is truthy and differs from `current`,
return it immediately; otherwise warn and set
`current_ip_before_change = new_ip if new_ip else current_ip_before_change`
(tornet.py 622) before the next iteration. -/
def change_ip_go (env : Env) : Nat → Nat → Option String → Option String × List AttemptRecord
  | 0, _, _ => (none, [])
  | fuel + 1, attempt, current =>
    let action := rotationAction env.stemAvailable (env.controlOk attempt)
    let new_ip := env.probe attempt
    let r : AttemptRecord := ⟨attempt, action, new_ip⟩
    if truthy new_ip = true ∧ new_ip ≠ current then
      (new_ip, [r])
    else
      let rest := change_ip_go env fuel (attempt + 1)
        (if truthy new_ip then new_ip else current)
      (rest.1, r :: rest.2)

/-- `change_ip` (tornet.py 562-628): probe the baseline IP (proceeding even
when the baseline probe fails), then run up to `max_retries` rotation+probe
attempts. -/
def change_ip (env : Env) (max_retries : Nat := 3) : Option String × List AttemptRecord :=
  change_ip_go env max_retries 1 env.baseline

/-- The first truthy probe result in the window of `fuel` attempts starting at
`attempt`, `none` when every probe in the window is falsy. -/
def firstTruthy (probe : Nat → Option String) : Nat → Nat → Option String
  | _, 0 => none
  | attempt, fuel + 1 =>
    if truthy (probe attempt) then probe attempt
    else firstTruthy probe (attempt + 1) fuel

/-! ## Scheduling Loop (`change_ip_repeatedly`, tornet.py 630-658) -/

/-- One cycle of the scheduling loop: the seconds slept before invoking
`change_ip`, and the value that invocation returned. -/
structure CycleRecord where
  waitedSeconds : Nat
  result : Option String
  deriving DecidableEq, Repr

/-- The common body of both branches of `change_ip_repeatedly`
(tornet.py 630-658): each iteration sleeps `interval` seconds, invokes
`change_ip()` (with its default `max_retries = 3`) on that cycle's
environment, reports the new IP when present, and proceeds to the next cycle
whether or not the call succeeded. -/
def scheduleCycles (envs : Nat → Env) (interval : Nat) : Nat → Nat → List CycleRecord
  | _, 0 => []
  | i, remaining + 1 =>
    { waitedSeconds := interval, result := (change_ip (envs i)).1 }
      :: scheduleCycles envs interval (i + 1) remaining

/-- The `count > 0` branch of `change_ip_repeatedly`: exactly `count`
iterations, then return. -/
def change_ip_repeatedly (envs : Nat → Env) (interval count : Nat) : List CycleRecord :=
  scheduleCycles envs interval 0 count

/-- The first `n` iterations of the `count == 0` branch of
`change_ip_repeatedly` (`while True`), whose loop body is identical to the
bounded branch's. -/
def change_ip_repeatedly_forever_firstn (envs : Nat → Env) (interval n : Nat) : List CycleRecord :=
  scheduleCycles envs interval 0 n

/-! ## Geolocation (`get_ip_geolocation`, tornet.py 470-494) -/

/-- Oracle for the geolocation HTTP request: `success c` is a 2xx JSON
response whose `country_name` field is `c` (`none` when the field is absent);
`failure` is any `requests.RequestException`, including bad statuses raised by
`raise_for_status`. -/
inductive GeoOutcome where
  | success (country_name : Option String)
  | failure
  deriving DecidableEq, Repr

/-- `get_ip_geolocation` (tornet.py 470-494): returns the country name and the
number of HTTP requests issued.  A falsy argument (`None` or `""`) returns
`"Unknown"` with no request; any request failure returns `"Unknown"`; a
response without a `country_name` field returns the `.get` default
`"Unknown"`. -/
def get_ip_geolocation (ip_address : Option String) (o : GeoOutcome) : String × Nat :=
  if truthy ip_address = false then ("Unknown", 0)
  else
    match o with
    | .success (some c) => (c, 1)
    | .success none => ("Unknown", 1)
    | .failure => ("Unknown", 1)

/-! ## OS detection (`get_os_type`, tornet.py 116-141) -/

/-- `get_os_type` (tornet.py 116-141): maps `platform.system()` to one of the
four OS-type strings. -/
def get_os_type (system : String) : String :=
  if system = "Linux" then "Linux"
  else if system = "Darwin" then "macOS"
  else if system = "Windows" then "Windows"
  else "Unknown"

/-! ## Concrete test environments -/

/-- Environment where rotation always yields a fresh IP. -/
def envFresh : Env :=
  { stemAvailable := true
    controlOk := fun _ => true
    osType := "Linux"
    baseline := some "1.2.3.4"
    probe := fun _ => some "5.6.7.8" }

/-- Environment where every probe keeps returning the baseline IP. -/
def envStuck : Env :=
  { stemAvailable := true
    controlOk := fun _ => true
    osType := "Linux"
    baseline := some "1.2.3.4"
    probe := fun _ => some "1.2.3.4" }

/-- Environment where attempt 1 re-observes the baseline and attempt 2
observes a fresh IP. -/
def envSecond : Env :=
  { stemAvailable := true
    controlOk := fun _ => true
    osType := "Linux"
    baseline := some "1.2.3.4"
    probe := fun i => if i = 2 then some "5.6.7.8" else some "1.2.3.4" }

/-- Environment where the control port fails on attempt 1 only, attempt 1
re-observes the baseline, and attempt 2 observes a fresh IP. -/
def envControlFlaky : Env :=
  { stemAvailable := true
    controlOk := fun i => decide (i ≠ 1)
    osType := "Linux"
    baseline := some "1.2.3.4"
    probe := fun i => if i = 2 then some "5.6.7.8" else some "1.2.3.4" }

/-- Environment whose baseline probe fails but whose attempts find an IP. -/
def envLateBoot : Env :=
  { stemAvailable := true
    controlOk := fun _ => true
    osType := "Linux"
    baseline := none
    probe := fun _ => some "9.9.9.9" }

/-- A cycle family for the scheduling loop in which every cycle fails. -/
def envsAllFail : Nat → Env := fun _ => envStuck

/-! ## Helper lemmas about the retry loop -/

lemma truthy_ne_none {x : Option String} (h : truthy x = true) : x ≠ none := by
  cases x with
  | none => simp [truthy] at h
  | some s => simp

/-- tornet.py 622: when an attempt fails, the reassignment
`current_ip_before_change = new_ip if new_ip else current_ip_before_change`
leaves the comparison value unchanged — a failed attempt's candidate is
either falsy (so the old value is kept) or equal to the old value. -/
lemma failed_update_eq (new_ip current : Option String)
    (h : ¬(truthy new_ip = true ∧ new_ip ≠ current)) :
    (if truthy new_ip then new_ip else current) = current := by
  by_cases ht : truthy new_ip = true
  · have heq : new_ip = current := by
      by_contra hne
      exact h ⟨ht, hne⟩
    simp [ht, heq]
  · simp [ht]

/-- Unfolding of one iteration of the retry loop. -/
lemma change_ip_go_succ (env : Env) (fuel attempt : Nat) (current : Option String) :
    change_ip_go env (fuel + 1) attempt current =
      if truthy (env.probe attempt) = true ∧ env.probe attempt ≠ current then
        (env.probe attempt,
          [⟨attempt, rotationAction env.stemAvailable (env.controlOk attempt),
            env.probe attempt⟩])
      else
        ((change_ip_go env fuel (attempt + 1)
            (if truthy (env.probe attempt) then env.probe attempt else current)).1,
          ⟨attempt, rotationAction env.stemAvailable (env.controlOk attempt),
            env.probe attempt⟩
            :: (change_ip_go env fuel (attempt + 1)
                (if truthy (env.probe attempt) then env.probe attempt else current)).2) :=
  rfl

/-- Any IP the retry loop returns is truthy and differs from the comparison
value the loop was entered with. -/
lemma change_ip_go_result_ne (env : Env) :
    ∀ fuel attempt current ip,
      (change_ip_go env fuel attempt current).1 = some ip →
      ip ≠ "" ∧ some ip ≠ current := by
  intro fuel
  induction fuel with
  | zero =>
    intro attempt current ip h
    simp [change_ip_go] at h
  | succ n ih =>
    intro attempt current ip h
    rw [change_ip_go_succ] at h
    by_cases hc : truthy (env.probe attempt) = true ∧ env.probe attempt ≠ current
    · rw [if_pos hc] at h
      obtain ⟨h1, h2⟩ := hc
      have hp : env.probe attempt = some ip := h
      rw [hp] at h1 h2
      simp [truthy] at h1
      exact ⟨h1, h2⟩
    · rw [if_neg hc, failed_update_eq _ _ hc] at h
      exact ih (attempt + 1) current ip h

/-- The retry loop performs at most `fuel` attempts. -/
lemma change_ip_go_length_le (env : Env) :
    ∀ fuel attempt current, (change_ip_go env fuel attempt current).2.length ≤ fuel := by
  intro fuel
  induction fuel with
  | zero =>
    intro attempt current
    simp [change_ip_go]
  | succ n ih =>
    intro attempt current
    rw [change_ip_go_succ]
    by_cases hc : truthy (env.probe attempt) = true ∧ env.probe attempt ≠ current
    · rw [if_pos hc]
      simp
    · rw [if_neg hc]
      simpa using ih (attempt + 1) _

/-- If no probe result is ever truthy and different from the comparison
value, the retry loop returns `none`. -/
lemma change_ip_go_none_of_all_fail (env : Env) (current : Option String)
    (hall : ∀ i, ¬(truthy (env.probe i) = true ∧ env.probe i ≠ current)) :
    ∀ fuel attempt, (change_ip_go env fuel attempt current).1 = none := by
  intro fuel
  induction fuel with
  | zero =>
    intro attempt
    simp [change_ip_go]
  | succ n ih =>
    intro attempt
    rw [change_ip_go_succ, if_neg (hall attempt), failed_update_eq _ _ (hall attempt)]
    exact ih (attempt + 1)

/-- Every attempt in the trace chose its rotation mechanism from that
attempt's own control-port outcome. -/
lemma change_ip_go_action (env : Env) :
    ∀ fuel attempt current r,
      r ∈ (change_ip_go env fuel attempt current).2 →
      r.action = rotationAction env.stemAvailable (env.controlOk r.attempt) := by
  intro fuel
  induction fuel with
  | zero =>
    intro attempt current r hr
    simp [change_ip_go] at hr
  | succ n ih =>
    intro attempt current r hr
    rw [change_ip_go_succ] at hr
    by_cases hc : truthy (env.probe attempt) = true ∧ env.probe attempt ≠ current
    · rw [if_pos hc] at hr
      simp at hr
      subst hr
      rfl
    · rw [if_neg hc] at hr
      simp only [List.mem_cons] at hr
      rcases hr with h | h
      · subst h
        rfl
      · exact ih _ _ _ h

/-- With an absent comparison value the retry loop returns the first truthy
probe result (a present candidate always differs from an absent baseline). -/
lemma change_ip_go_baseline_none (env : Env) :
    ∀ fuel attempt,
      (change_ip_go env fuel attempt none).1 = firstTruthy env.probe attempt fuel := by
  intro fuel
  induction fuel with
  | zero =>
    intro attempt
    simp [change_ip_go, firstTruthy]
  | succ n ih =>
    intro attempt
    rw [change_ip_go_succ, firstTruthy]
    cases htb : truthy (env.probe attempt) with
    | true =>
      have hne : env.probe attempt ≠ none := truthy_ne_none htb
      simp [htb, hne]
    | false =>
      simp only [htb, Bool.false_eq_true, false_and, if_false, if_neg]
      simpa [htb] using ih (attempt + 1)

/-- A `none` result means the retry loop used up all its attempts. -/
lemma change_ip_go_exhaust (env : Env) :
    ∀ fuel attempt current,
      (change_ip_go env fuel attempt current).1 = none →
      (change_ip_go env fuel attempt current).2.length = fuel := by
  intro fuel
  induction fuel with
  | zero =>
    intro attempt current _
    simp [change_ip_go]
  | succ n ih =>
    intro attempt current h
    rw [change_ip_go_succ] at h ⊢
    by_cases hc : truthy (env.probe attempt) = true ∧ env.probe attempt ≠ current
    · rw [if_pos hc] at h
      exact absurd h (truthy_ne_none hc.1)
    · rw [if_neg hc] at h ⊢
      simp only [List.length_cons]
      rw [ih _ _ h]

/-- The rotation step prefers the control signal exactly when stem is
available and the control-port sequence succeeds. -/
lemma rotationAction_eq (s c : Bool) :
    rotationAction s c =
      if s && c then RotationAction.controlSignal else RotationAction.serviceReload := by
  cases s <;> simp [rotationAction, change_ip_via_control_port]

/-- Index formula for the scheduling loop's trace. -/
lemma scheduleCycles_get? (envs : Nat → Env) (interval : Nat) :
    ∀ count start i,
      (scheduleCycles envs interval start count).get? i =
        if i < count then some ⟨interval, (change_ip (envs (start + i))).1⟩ else none := by
  intro count
  induction count with
  | zero =>
    intro start i
    simp [scheduleCycles]
  | succ n ih =>
    intro start i
    cases i with
    | zero =>
      simp [scheduleCycles]
    | succ j =>
      have harith : start + 1 + j = start + (j + 1) := by omega
      simp only [scheduleCycles, List.get?_cons_succ, ih (start + 1) j, harith,
        Nat.add_lt_add_iff_right]

/-- The scheduling loop's trace has one entry per iteration. -/
lemma scheduleCycles_length (envs : Nat → Env) (interval : Nat) :
    ∀ count start, (scheduleCycles envs interval start count).length = count := by
  intro count
  induction count with
  | zero =>
    intro start
    simp [scheduleCycles]
  | succ n ih =>
    intro start
    simp [scheduleCycles, ih (start + 1)]

/-! ## Claim theorems -/

/-- Claim C1: when the baseline probe of `change_ip` returns a present IP,
the call either returns Absent or returns a non-empty IP different from that
baseline IP; an attempt succeeds only when its probed IP is present and
differs from the comparison value, and this holds even though the comparison
value is re-assigned to the latest present candidate after each failed
attempt. -/
theorem change_ip_never_returns_baseline (env : Env) (n : Nat) (b : String)
    (hb : env.baseline = some b) (_hbne : b ≠ "") :
    (change_ip env n).1 = none ∨
      ∃ ip, (change_ip env n).1 = some ip ∧ ip ≠ "" ∧ ip ≠ b := by
  cases h : (change_ip env n).1 with
  | none => exact Or.inl rfl
  | some ip =>
    have h' : (change_ip_go env n 1 env.baseline).1 = some ip := h
    obtain ⟨hne, hnecur⟩ := change_ip_go_result_ne env n 1 env.baseline ip h'
    refine Or.inr ⟨ip, rfl, hne, ?_⟩
    intro hib
    apply hnecur
    rw [hb, hib]

theorem change_ip_never_returns_baseline_witness :
    (change_ip envFresh 3).1 = none ∨
      ∃ ip, (change_ip envFresh 3).1 = some ip ∧ ip ≠ "" ∧ ip ≠ "1.2.3.4" :=
  change_ip_never_returns_baseline envFresh 3 "1.2.3.4" rfl (by decide)

/-- Claim C2: `change_ip` performs at most `max_retries` rotation+probe
pairs, and when no attempt's probe yields a present IP differing from the
comparison value (which stays equal to the baseline across failed attempts),
it returns Absent — a per-cycle failure value, not an exception. -/
theorem change_ip_retry_bound_and_absent (env : Env) (n : Nat) :
    (change_ip env n).2.length ≤ n ∧
      ((∀ i, ¬(truthy (env.probe i) = true ∧ env.probe i ≠ env.baseline)) →
        (change_ip env n).1 = none) := by
  constructor
  · exact change_ip_go_length_le env n 1 env.baseline
  · intro hall
    exact change_ip_go_none_of_all_fail env env.baseline hall n 1

theorem change_ip_retry_bound_and_absent_witness :
    (change_ip envStuck 3).2.length ≤ 3 ∧ (change_ip envStuck 3).1 = none :=
  ⟨(change_ip_retry_bound_and_absent envStuck 3).1,
    (change_ip_retry_bound_and_absent envStuck 3).2 (fun _ h => h.2 rfl)⟩

/-- Claim C3: when the control-channel rotation fails within an attempt, the
rotation step falls back to service reload within that same attempt, and
`rotate` still returns true when the reload command dispatch succeeds (true
means a rotation command was issued, not that the IP changed). -/
theorem rotate_fallback_on_control_failure (stem : Bool) (os : String) :
    change_ip_via_control_port stem false = false ∧
      rotationAction stem false = RotationAction.serviceReload ∧
      ((reload_tor_service os).isSome = true → rotate stem false os = true) := by
  refine ⟨?_, ?_, ?_⟩ <;> cases stem <;>
    simp [change_ip_via_control_port, rotationAction, rotate]

theorem rotate_fallback_on_control_failure_witness :
    rotate true false "Linux" = true :=
  (rotate_fallback_on_control_failure true "Linux").2.2 (by decide)

/-- Claim C4: both IP probes return Absent (never an exception) on timeout,
HTTP-error status or connection error; each issues exactly one request (no
retries at this layer); the anonymity-network probe goes through the local
SOCKS proxy with a 30-second timeout, the direct probe uses no proxy and a
10-second timeout. -/
theorem probe_absent_on_failure (o : HttpOutcome) :
    (o.isFailure = true → (ma_ip_tor o).1 = none ∧ (ma_ip_normal o).1 = none) ∧
      (ma_ip_tor o).2 = [ma_ip_tor_request] ∧
      (ma_ip_normal o).2 = [ma_ip_normal_request] ∧
      ma_ip_tor_request.socksProxy = some "socks5h://127.0.0.1:9050" ∧
      ma_ip_tor_request.timeoutSeconds = 30 ∧
      ma_ip_normal_request.socksProxy = none ∧
      ma_ip_normal_request.timeoutSeconds = 10 := by
  refine ⟨?_, ?_, ?_, rfl, rfl, rfl, rfl⟩ <;> cases o <;>
    simp [ma_ip_tor, ma_ip_normal, HttpOutcome.isFailure]

theorem probe_absent_on_failure_witness :
    (ma_ip_tor HttpOutcome.timeout).1 = none ∧
      (ma_ip_normal HttpOutcome.timeout).1 = none :=
  (probe_absent_on_failure HttpOutcome.timeout).1 (by decide)

/-- Claim C5: with baseline "1.2.3.4", attempt 1's probe returning "1.2.3.4"
and attempt 2's probe returning "5.6.7.8", `change_ip` (default 3 retries)
returns "5.6.7.8" after exactly 2 attempts — a successful attempt returns its
candidate immediately with no further attempts. -/
theorem change_ip_second_attempt_success (env : Env)
    (h0 : env.baseline = some "1.2.3.4")
    (h1 : env.probe 1 = some "1.2.3.4")
    (h2 : env.probe 2 = some "5.6.7.8") :
    (change_ip env).1 = some "5.6.7.8" ∧ (change_ip env).2.length = 2 := by
  simp [change_ip, change_ip_go, h0, h1, h2, truthy]

theorem change_ip_second_attempt_success_witness :
    (change_ip envSecond).1 = some "5.6.7.8" ∧ (change_ip envSecond).2.length = 2 :=
  change_ip_second_attempt_success envSecond rfl rfl rfl

/-- Claim C6: the scheduling loop with positive `count` performs exactly
`count` cycles, each sleeping `interval` seconds before invoking `change_ip`
on that cycle's environment, and a failed cycle does not stop the loop (the
entry for every index below `count` exists whatever the results are); with
`count = 0` the loop body is entered for every `n` (it runs forever). -/
theorem change_ip_repeatedly_spec (envs : Nat → Env) (interval count : Nat)
    (_hpos : 0 < count) :
    (change_ip_repeatedly envs interval count).length = count ∧
      (∀ i, i < count →
        (change_ip_repeatedly envs interval count).get? i =
          some ⟨interval, (change_ip (envs i)).1⟩) ∧
      (∀ n, (change_ip_repeatedly_forever_firstn envs interval n).length = n) := by
  refine ⟨scheduleCycles_length envs interval count 0, fun i hi => ?_,
    fun n => scheduleCycles_length envs interval n 0⟩
  rw [change_ip_repeatedly, scheduleCycles_get? envs interval count 0 i]
  simp [hi]

theorem change_ip_repeatedly_spec_witness :
    (change_ip_repeatedly envsAllFail 60 3).length = 3 ∧
      (change_ip_repeatedly envsAllFail 60 3).get? 1 =
        some ⟨60, (change_ip (envsAllFail 1)).1⟩ ∧
      (change_ip_repeatedly_forever_firstn envsAllFail 60 5).length = 5 :=
  ⟨(change_ip_repeatedly_spec envsAllFail 60 3 (by decide)).1,
    (change_ip_repeatedly_spec envsAllFail 60 3 (by decide)).2.1 1 (by decide),
    (change_ip_repeatedly_spec envsAllFail 60 3 (by decide)).2.2 5⟩

/-- Claim C7: the rotation strategy is recomputed independently for every
attempt: a recorded attempt used the control signal exactly when the control
capability was available and that attempt's own control-port sequence
succeeded, so a fallback in one attempt is not sticky for later ones. -/
theorem rotation_strategy_not_sticky (env : Env) (n : Nat) (r : AttemptRecord)
    (hr : r ∈ (change_ip env n).2) :
    (r.action = RotationAction.controlSignal ↔
      (env.stemAvailable && env.controlOk r.attempt) = true) := by
  have ha := change_ip_go_action env n 1 env.baseline r hr
  rw [ha, rotationAction_eq]
  cases h : env.stemAvailable && env.controlOk r.attempt <;> simp

theorem rotation_strategy_not_sticky_witness :
    ((⟨2, RotationAction.controlSignal, some "5.6.7.8"⟩ : AttemptRecord).action =
        RotationAction.controlSignal ↔
      (envControlFlaky.stemAvailable && envControlFlaky.controlOk 2) = true) :=
  rotation_strategy_not_sticky envControlFlaky 3
    ⟨2, RotationAction.controlSignal, some "5.6.7.8"⟩ (by decide)

/-- Claim C8: when the baseline probe returns Absent, `change_ip` neither
aborts nor raises: it returns the first present probe result of its attempts
(a present candidate against an absent baseline counts as a change and
succeeds immediately), a `none` result means all attempts ran, and a present
probe on attempt 1 is returned at once after a single attempt. -/
theorem change_ip_absent_baseline (env : Env) (n : Nat)
    (hb : env.baseline = none) :
    (change_ip env (n + 1)).1 = firstTruthy env.probe 1 (n + 1) ∧
      ((change_ip env (n + 1)).1 = none → (change_ip env (n + 1)).2.length = n + 1) ∧
      (truthy (env.probe 1) = true →
        (change_ip env (n + 1)).1 = env.probe 1 ∧
          (change_ip env (n + 1)).2.length = 1) := by
  have hch : change_ip env (n + 1) = change_ip_go env (n + 1) 1 none := by
    rw [change_ip, hb]
  refine ⟨?_, ?_, ?_⟩
  · rw [hch]
    exact change_ip_go_baseline_none env (n + 1) 1
  · rw [hch]
    exact change_ip_go_exhaust env (n + 1) 1 none
  · intro ht
    have hne : env.probe 1 ≠ none := truthy_ne_none ht
    rw [hch, change_ip_go_succ, if_pos ⟨ht, hne⟩]
    exact ⟨rfl, rfl⟩

theorem change_ip_absent_baseline_witness :
    (change_ip envLateBoot 3).1 = envLateBoot.probe 1 ∧
      (change_ip envLateBoot 3).2.length = 1 :=
  (change_ip_absent_baseline envLateBoot 2 rfl).2.2 (by decide)

/-- Claim C9: the geolocation lookup is total and never raises: a falsy
(absent or empty) IP argument yields "Unknown" with no HTTP request issued,
any request failure yields "Unknown", and in every case the result is either
"Unknown" or the country name of a successful response. -/
theorem geolocation_total_unknown (ip : Option String) (o : GeoOutcome) :
    (truthy ip = false → get_ip_geolocation ip o = ("Unknown", 0)) ∧
      (o = GeoOutcome.failure → (get_ip_geolocation ip o).1 = "Unknown") ∧
      ((get_ip_geolocation ip o).1 = "Unknown" ∨
        ∃ c, o = GeoOutcome.success (some c) ∧ (get_ip_geolocation ip o).1 = c) := by
  refine ⟨fun h => by simp [get_ip_geolocation, h], fun h => ?_, ?_⟩
  · subst h
    cases ht : truthy ip <;> simp [get_ip_geolocation, ht]
  · cases ht : truthy ip with
    | false => exact Or.inl (by simp [get_ip_geolocation, ht])
    | true =>
      cases o with
      | failure => exact Or.inl (by simp [get_ip_geolocation, ht])
      | success c =>
        cases c with
        | none => exact Or.inl (by simp [get_ip_geolocation, ht])
        | some c => exact Or.inr ⟨c, rfl, by simp [get_ip_geolocation, ht]⟩

theorem geolocation_total_unknown_witness :
    get_ip_geolocation none GeoOutcome.failure = ("Unknown", 0) :=
  (geolocation_total_unknown none GeoOutcome.failure).1 (by decide)

/-- Claim C10: `get_os_type` is total and always returns one of the four
strings "Linux", "macOS", "Windows", "Unknown", mapping "Linux" to "Linux",
"Darwin" to "macOS", "Windows" to "Windows" and everything else to
"Unknown". -/
theorem get_os_type_total (s : String) :
    (get_os_type s = "Linux" ∨ get_os_type s = "macOS" ∨
        get_os_type s = "Windows" ∨ get_os_type s = "Unknown") ∧
      get_os_type "Linux" = "Linux" ∧
      get_os_type "Darwin" = "macOS" ∧
      get_os_type "Windows" = "Windows" ∧
      (s ≠ "Linux" → s ≠ "Darwin" → s ≠ "Windows" → get_os_type s = "Unknown") := by
  refine ⟨?_, by decide, by decide, by decide, fun h1 h2 h3 => ?_⟩
  · unfold get_os_type
    split_ifs <;> simp
  · simp [get_os_type, h1, h2, h3]

theorem get_os_type_total_witness : get_os_type "FreeBSD" = "Unknown" :=
  (get_os_type_total "FreeBSD").2.2.2.2 (by decide) (by decide) (by decide)

end Tornet
